import Mathlib

/-!
Verification development for the QuantumFortress sponge engine
(`src/Hashing/QuantumProtection.cpp/.h`) and its self-healing subsystem
(`src/Hashing/SelfHeal.cpp/.h`).

Machine integers (`uint64_t`) are modelled as `Nat` with explicit reduction
modulo `2^64` wherever the C++ arithmetic wraps.  The 2048-bit state is a
list of 32 words; the byte view used by `qfAbsorb`/`qfSqueeze`
(`reinterpret_cast<uint8_t*>(qs.state)`) is modelled with the little-endian
word/byte mapping (per the spec, the endian mapping is fixed once per build).
The process-wide random generator that mints ephemeral snapshot keys is
modelled by passing the minted key as an explicit argument.
-/

/-- The modulus of 64-bit machine arithmetic. -/
def M64 : Nat := 2 ^ 64

/-- `QFState` from `QuantumProtection.h`: 32 64-bit words plus the
absorbed-byte counter. -/
structure QFState where
  state : List Nat
  absorbedBytes : Nat
deriving DecidableEq, Repr

/-- The round-constant table `ROUND_CONSTANTS` from `QuantumProtection.cpp`
lines 10-23, in source order. -/
def ROUND_CONSTANTS : List Nat :=
  [0x0000000000000001, 0x0000000000008082,
   0x800000000000808a, 0x8000000080008000,
   0x000000000000808b, 0x0000000080000001,
   0x8000000080008081, 0x8000000000008009,
   0x000000000000008a, 0x0000000000000088,
   0x0000000080008009, 0x000000008000000a,
   0x000000008000808b, 0x800000000000008b,
   0x8000000000008089, 0x8000000000008003,
   0x8000000000008002, 0x8000000000000080,
   0x000000000000800a, 0x800000008000000a,
   0x8000000080008081, 0x8000000000008080,
   0x0000000080000001, 0x8000000080008008]

/-- `rotl64` from `QuantumProtection.cpp` line 28:
`(x << n) | (x >> (64 - n))`, on 64-bit words.  The C expression
`x >> (64 - n)` is undefined behaviour in C++ when `n = 0`; the embedding
uses the mathematical shift, under which `x >>> 64 = 0` for `x < 2^64`
(so `rotl64 x 0 = x`, which also matches the observed x86 behaviour). -/
def rotl64 (x n : Nat) : Nat := ((x <<< n) ||| (x >>> (64 - n))) % M64

/-- Rotation count of the first pair-mix rotation in `qfPermutation`
(line 67): `(i + round) % 63`. -/
def pairRotA (i round : Nat) : Nat := (i + round) % 63

/-- Rotation count of the second pair-mix rotation in `qfPermutation`
(line 68): `((i * 3) + round) % 59`. -/
def pairRotB (i round : Nat) : Nat := (i * 3 + round) % 59

/-- One round of `qfPermutation` (`QuantumProtection.cpp` lines 58-77):
round-constant injection, then the even-pair rotate-mix loop
(`for (int i = 0; i < 32; i += 2)`, modelled as a fold over `j < 16` with
`i = 2 * j`), then the cross-lane mixing loop over `i < 32` in increasing
order, each loop reading the state as already mutated. -/
def permRound (s : List Nat) (round : Nat) : List Nat :=
  let s1 := s.set (round % 32) ((s.getD (round % 32) 0) ^^^ ROUND_CONSTANTS.getD round 0)
  let s2 := (List.range 16).foldl (fun t j =>
    let i := 2 * j
    let a := t.getD i 0
    let b := t.getD (i + 1) 0
    let a2 := rotl64 (a ^^^ b) (pairRotA i round)
    let b2 := rotl64 (b ^^^ a2) (pairRotB i round)
    (t.set i a2).set (i + 1) b2) s1
  (List.range 32).foldl (fun t i =>
    t.set i ((t.getD i 0) ^^^ rotl64 (t.getD ((i + 5) % 32) 0) ((i + round) % 7 + 1))) s2

/-- The 24-round permutation `qfPermutation`, at the word level. -/
def permuteWords (s : List Nat) : List Nat :=
  (List.range 24).foldl permRound s

/-- `qfPermutation` from `QuantumProtection.cpp` lines 53-78: transforms the
32 words through 24 rounds; `absorbedBytes` is untouched. -/
def qfPermutation (qs : QFState) : QFState :=
  { qs with state := permuteWords qs.state }

/-- `qfInit` from `QuantumProtection.cpp` lines 36-46: words 0-3 are the four
fixed constants, words 4-31 are zero, `absorbedBytes` is zero. -/
def qfInit : QFState :=
  { state := [0x6A09E667F3BCC908, 0xBB67AE8584CAA73B,
              0x3C6EF372FE94F82B, 0xA54FF53A5F1D36F1] ++ List.replicate 28 0,
    absorbedBytes := 0 }

/-- XOR one input byte into byte position `pos` of the state's byte view
(`reinterpret_cast<uint8_t*>(qs.state)[pos] ^= b`, little-endian mapping:
byte `pos` lives in word `pos / 8` at bit offset `8 * (pos % 8)`). -/
def xorByteIntoState (s : List Nat) (pos b : Nat) : List Nat :=
  s.set (pos / 8) ((s.getD (pos / 8) 0) ^^^ (b <<< (8 * (pos % 8))))

/-- The inner XOR loop of `qfAbsorb` (`QuantumProtection.cpp` lines 95-97):
XOR the bytes of `chunk` into state byte positions `0, 1, ...`. -/
def xorChunk (s : List Nat) (chunk : List Nat) : List Nat :=
  (List.range chunk.length).foldl (fun t i => xorByteIntoState t i (chunk.getD i 0)) s

/-- The `while (len > 0)` loop of `qfAbsorb` (`QuantumProtection.cpp`
lines 89-111), additionally counting how many times `qfPermutation` runs:
XOR `toXor = min len 128` input bytes at offset 0; permute exactly when a
full 128-byte window was consumed; stop after a partial window. -/
def qfAbsorbLoop (s : List Nat) (data : List Nat) : List Nat × Nat :=
  if data.length = 0 then (s, 0)
  else
    let toXor := min data.length 128
    let s1 := xorChunk s (data.take toXor)
    if toXor = 128 then
      let r := qfAbsorbLoop (permuteWords s1) (data.drop 128)
      (r.1, r.2 + 1)
    else
      (s1, 0)
termination_by data.length
decreasing_by simp only [List.length_drop]; omega

/-- `qfAbsorb` from `QuantumProtection.cpp` lines 85-112, instrumented with
the permutation-call counter the spec's testable properties refer to.
`qs.absorbedBytes += len` is the 64-bit wrapping increment. -/
def qfAbsorbAux (qs : QFState) (data : List Nat) : QFState × Nat :=
  let r := qfAbsorbLoop qs.state data
  ({ state := r.1, absorbedBytes := (qs.absorbedBytes + data.length) % M64 }, r.2)

/-- `qfAbsorb`, result state only. -/
def qfAbsorb (qs : QFState) (data : List Nat) : QFState :=
  (qfAbsorbAux qs data).1

/-- Byte `i` of the state's byte view (little-endian). -/
def stateByte (s : List Nat) (i : Nat) : Nat :=
  ((s.getD (i / 8) 0) >>> (8 * (i % 8))) % 256

/-- The first `n` bytes of the rate window (`std::memcpy(out, state, n)`). -/
def rateBytesOf (s : List Nat) (n : Nat) : List Nat :=
  (List.range n).map (stateByte s)

/-- The `while (outLen > 0)` loop of `qfSqueeze` (`QuantumProtection.cpp`
lines 142-154), additionally counting the permutations it performs: copy
`min outLen 128` bytes out of the rate window; if output remains, permute
and continue. -/
def qfSqueezeLoop (s : List Nat) (outLen : Nat) : List Nat × Nat :=
  if outLen = 0 then ([], 0)
  else
    let toCopy := min outLen 128
    let block := rateBytesOf s toCopy
    if outLen ≤ 128 then (block, 0)
    else
      let r := qfSqueezeLoop (permuteWords s) (outLen - 128)
      (block ++ r.1, r.2 + 1)
termination_by outLen
decreasing_by omega

/-- `qfSqueeze` from `QuantumProtection.cpp` lines 119-155, instrumented with
the permutation-call counter.  The C++ function works on a local copy of the
`const` caller state (`QFState qs = qsConst`) — the caller's state is never
written — so the embedding consumes the state by value and returns only the
output bytes and the permutation count.  It permutes once unconditionally
before the output loop. -/
def qfSqueezeAux (qs : QFState) (outLen : Nat) : List Nat × Nat :=
  let r := qfSqueezeLoop (permuteWords qs.state) outLen
  (r.1, r.2 + 1)

/-- `qfSqueeze`, output bytes only. -/
def qfSqueeze (qs : QFState) (outLen : Nat) : List Nat :=
  (qfSqueezeAux qs outLen).1

/-- `FNV_PRIME` from `SelfHeal.cpp` line 16. -/
def FNV_PRIME : Nat := 0x100000001B3

/-- The FNV offset basis from `SelfHeal.cpp` line 17. -/
def FNV_OFFSET : Nat := 0xcbf29ce484222325

/-- The inner byte loop of `miniHash` (`SelfHeal.cpp` lines 20-26): fold the
eight little-endian bytes of `val` into the accumulator with
`hash ^= byte; hash *= FNV_PRIME` (64-bit wrapping multiply). -/
def miniHashWord (h val : Nat) : Nat :=
  (List.range 8).foldl (fun acc b =>
    ((acc ^^^ ((val >>> (8 * b)) % 256)) * FNV_PRIME) % M64) h

/-- `miniHash` from `SelfHeal.cpp` lines 14-29: FNV-like mix of a word list,
seeded with `0xcbf29ce484222325 ^ key`. -/
def miniHash (ws : List Nat) (key : Nat) : Nat :=
  ws.foldl miniHashWord (FNV_OFFSET ^^^ key)

/-- `StateSnapshot` from `SelfHeal.h` lines 12-29.  `state` is the full
32-word copy (`SNAP_WORDS = 32`; `createSnapshot` copies
`sizeof(qs.state)` = 256 bytes).  In the C++ struct `partialChecks` has 32
slots but `fillChecksums` writes, and every reader reads, only the first 8;
slots 8-31 are never initialised nor read, so the embedding keeps the 8
meaningful entries. -/
structure StateSnapshot where
  state : List Nat
  totalLen : Nat
  partialChecks : List Nat
  fullChecksum : Nat
  ephemeralKey : Nat
deriving DecidableEq, Repr

/-- `fillChecksums` from `SelfHeal.cpp` lines 34-48: per-word tags over the
first 8 words, and a combined tag over those words followed by `totalLen`. -/
def fillChecksums (snap : StateSnapshot) : StateSnapshot :=
  { snap with
    partialChecks := (List.range 8).map (fun i => miniHash [snap.state.getD i 0] snap.ephemeralKey),
    fullChecksum := miniHash ((List.range 8).map (fun i => snap.state.getD i 0) ++ [snap.totalLen])
      snap.ephemeralKey }

/-- `createSnapshot` from `SelfHeal.cpp` lines 53-67.  The process-wide
`std::mt19937_64` mint is modelled by the `ephemeral` argument (any 64-bit
value the generator may produce, 0 included). -/
def createSnapshot (qs : QFState) (ephemeral : Nat) : StateSnapshot :=
  fillChecksums
    { state := qs.state, totalLen := qs.absorbedBytes,
      partialChecks := [], fullChecksum := 0, ephemeralKey := ephemeral }

/-- `validateSnapshot` from `SelfHeal.cpp` lines 72-94: recompute the 8
per-word tags and the combined tag from the live state with the snapshot's
key, and compare against the stored tags. -/
def validateSnapshot (qs : QFState) (snap : StateSnapshot) : Bool :=
  ((List.range 8).all (fun i =>
      miniHash [qs.state.getD i 0] snap.ephemeralKey == snap.partialChecks.getD i 0)) &&
  (miniHash ((List.range 8).map (fun i => qs.state.getD i 0) ++ [qs.absorbedBytes])
      snap.ephemeralKey == snap.fullChecksum)

/-- `SelfHealContext` from `SelfHeal.h` lines 34-52 (`MAX_SNAPSHOTS = 5`).
The C++ counters are `int`s that are only ever zeroed or incremented. -/
structure SelfHealContext where
  snapshots : List StateSnapshot
  currentIndex : Nat
  shadowCopy : StateSnapshot
  partialRepairs : Nat
  fullReverts : Nat
  totalReinits : Nat
  consecutiveAnomalies : Nat
deriving DecidableEq, Repr

/-- A sentinel ring slot as written by `selfHealInit` (`SelfHeal.cpp`
lines 115-119): key 0, zero checksums.  (`state`/`totalLen` of sentinel
slots are left uninitialised by the C++ code and are never read before being
overwritten; the embedding zeroes them.) -/
def sentinelSnapshot : StateSnapshot :=
  { state := List.replicate 32 0, totalLen := 0,
    partialChecks := List.replicate 8 0, fullChecksum := 0, ephemeralKey := 0 }

/-- `selfHealInit` from `SelfHeal.cpp` lines 99-120: zero the counters, put a
fresh snapshot at ring index 0 and as shadow, make slots 1-4 sentinels. -/
def selfHealInit (qs : QFState) (key : Nat) : SelfHealContext :=
  let initialSnap := createSnapshot qs key
  { snapshots := initialSnap :: List.replicate 4 sentinelSnapshot,
    currentIndex := 0, shadowCopy := initialSnap,
    partialRepairs := 0, fullReverts := 0, totalReinits := 0, consecutiveAnomalies := 0 }

/-- `selfHealSaveSnapshot` from `SelfHeal.cpp` lines 125-135: advance the
ring index circularly, overwrite that slot, replace the shadow. -/
def selfHealSaveSnapshot (ctx : SelfHealContext) (qs : QFState) (key : Nat) : SelfHealContext :=
  let newSnap := createSnapshot qs key
  let idx := (ctx.currentIndex + 1) % 5
  { ctx with
    currentIndex := idx
    snapshots := ctx.snapshots.set idx newSnap
    shadowCopy := newSnap }

/-- The `MAX_LEN` ceiling from `SelfHeal.cpp` line 148: `1ULL << 48`. -/
def MAX_LEN : Nat := 2 ^ 48

/-- `selfHealDetect` from `SelfHeal.cpp` lines 140-166: healthy if the shadow
validates; else anomalous if `absorbedBytes` exceeds the ceiling; else scan
every ring slot (no sentinel exclusion) and report healthy if any slot
validates; else anomalous.  The function never writes the context. -/
def selfHealDetect (qs : QFState) (ctx : SelfHealContext) : Bool :=
  if validateSnapshot qs ctx.shadowCopy then false
  else if qs.absorbedBytes > MAX_LEN then true
  else if (List.range 5).any (fun i => validateSnapshot qs (ctx.snapshots.getD i sentinelSnapshot))
    then false
  else true

/-- The partial-healing loop of `selfHealAttemptRecovery` (`SelfHeal.cpp`
lines 181-191): for each of the first 8 words, if its per-word tag does not
match the shadow's, revert that word from the shadow and count it. -/
def partialFixWords (qs : QFState) (shadow : StateSnapshot) : QFState × Nat :=
  (List.range 8).foldl (fun p i =>
    if miniHash [p.1.state.getD i 0] shadow.ephemeralKey = shadow.partialChecks.getD i 0
    then p
    else ({ p.1 with state := p.1.state.set i (shadow.state.getD i 0) }, p.2 + 1))
    (qs, 0)

/-- The full-revert ring scan of `selfHealAttemptRecovery` (`SelfHeal.cpp`
lines 208-229), result index only: walk `idx = (currentIndex - i + 5) % 5`
for `i = 0..4`, skip slots with `ephemeralKey = 0`, and return the first
slot that is self-consistent.  The C++ self-check reinterprets the
snapshot's 256-byte word buffer as a `QFState`; by layout the aliased view
has `state = snap.state` and `absorbedBytes = snap.totalLen`, which is what
the embedding validates. -/
def ringScanIdx (ctx : SelfHealContext) : Option Nat :=
  ((List.range 5).map (fun i => (ctx.currentIndex + 5 - i) % 5)).find? (fun idx =>
    let snap := ctx.snapshots.getD idx sentinelSnapshot
    snap.ephemeralKey != 0 &&
      validateSnapshot { state := snap.state, absorbedBytes := snap.totalLen } snap)

/-- Which exit `selfHealAttemptRecovery` took: partial repair, full revert
from ring slot `idx`, or forced reinitialisation. -/
inductive RecoveryPath where
  | repairPath : RecoveryPath
  | revertPath : Nat → RecoveryPath
  | reinitPath : RecoveryPath
deriving DecidableEq, Repr

/-- `true` exactly on `revertPath`. -/
def RecoveryPath.isRevert : RecoveryPath → Bool
  | .revertPath _ => true
  | _ => false

/-- Result of `selfHealAttemptRecovery`: the returned boolean, the state and
context after the call, and (instrumentation) the exit path taken. -/
structure RecoveryResult where
  ok : Bool
  qs : QFState
  ctx : SelfHealContext
  path : RecoveryPath
deriving DecidableEq, Repr

/-- `selfHealAttemptRecovery` from `SelfHeal.cpp` lines 171-240.  Each exit
path creates at most one snapshot, whose minted ephemeral key is the `key`
argument.  Part A: partial fixes stay applied even when the subsequent
detect still reports an anomaly (the C++ falls through to Part B with the
fixed words).  Part B's revert copies `sizeof(qs.state)` = 256 bytes, i.e.
all 32 words, from the ring slot, and sets `absorbedBytes = totalLen`.
Part C reinitialises the state and the whole context, then increments
`totalReinits` (which `selfHealInit` has just zeroed). -/
def selfHealAttemptRecovery (qs : QFState) (ctx : SelfHealContext) (key : Nat) : RecoveryResult :=
  let ctx1 := { ctx with consecutiveAnomalies := ctx.consecutiveAnomalies + 1 }
  let pf := partialFixWords qs ctx1.shadowCopy
  if pf.2 > 0 && !(selfHealDetect pf.1 ctx1) then
    let ctxA := { ctx1 with partialRepairs := ctx1.partialRepairs + 1 }
    let ctxB := selfHealSaveSnapshot ctxA pf.1 key
    { ok := true, qs := pf.1, ctx := { ctxB with consecutiveAnomalies := 0 },
      path := .repairPath }
  else
    match ringScanIdx ctx1 with
    | some idx =>
      let snap := ctx1.snapshots.getD idx sentinelSnapshot
      let qs2 : QFState := { state := snap.state, absorbedBytes := snap.totalLen }
      let ctxA := { ctx1 with shadowCopy := snap, fullReverts := ctx1.fullReverts + 1 }
      let ctxB := selfHealSaveSnapshot ctxA qs2 key
      { ok := true, qs := qs2, ctx := { ctxB with consecutiveAnomalies := 0 },
        path := .revertPath idx }
    | none =>
      let qs3 := qfInit
      let ctx2 := selfHealInit qs3 key
      let ctx3 := { ctx2 with totalReinits := ctx2.totalReinits + 1 }
      { ok := false, qs := qs3, ctx := { ctx3 with consecutiveAnomalies := 0 },
        path := .reinitPath }

/-- Ascending index iteration: `iterIdx g n s` applies `g 0`, then `g 1`, …,
then `g (n-1)` to `s`, strictly in increasing index order. -/
def iterIdx (g : Nat → List Nat → List Nat) : Nat → List Nat → List Nat
  | 0, s => s
  | k + 1, s => g k (iterIdx g k s)

/-- Spec wording, round step 1: XOR the round constant for round `r` into
`words[r mod 32]`. -/
def specStep1 (r : Nat) (s : List Nat) : List Nat :=
  s.set (r % 32) ((s.getD (r % 32) 0) ^^^ ROUND_CONSTANTS.getD r 0)

/-- Spec wording, round step 2 for one even pair `(i, i+1)`:
`a = rotateLeft(words[i] XOR words[i+1], (i+r) mod 63)`,
`b = rotateLeft(words[i+1] XOR a, (3i+r) mod 59)` with `b` computed from the
already-updated `a`; write `a`, `b` back. -/
def specPairStep (r i : Nat) (s : List Nat) : List Nat :=
  let a := rotl64 ((s.getD i 0) ^^^ (s.getD (i + 1) 0)) ((i + r) % 63)
  let b := rotl64 ((s.getD (i + 1) 0) ^^^ a) ((3 * i + r) % 59)
  (s.set i a).set (i + 1) b

/-- Spec wording, round step 3 for one index `i`:
`words[i] ^= rotateLeft(words[(i+5) mod 32], ((i+r) mod 7) + 1)`, reading
the state as already mutated. -/
def specLaneStep (r i : Nat) (s : List Nat) : List Nat :=
  s.set i ((s.getD i 0) ^^^ rotl64 (s.getD ((i + 5) % 32) 0) ((i + r) % 7 + 1))

/-- Spec wording, one full round `r`: step 1, then step 2 over the even
pairs `i = 0, 2, …, 30` in increasing order, then step 3 over
`i = 0, …, 31` strictly in increasing order. -/
def specRound (r : Nat) (s : List Nat) : List Nat :=
  iterIdx (fun k t => specLaneStep r k t) 32
    (iterIdx (fun k t => specPairStep r (2 * k) t) 16 (specStep1 r s))

/-- Spec wording of the permutation: exactly 24 rounds, `r = 0, …, 23` in
order. -/
def permSpec (qs : QFState) : QFState :=
  { qs with state := iterIdx specRound 24 qs.state }

/-- Spec wording of the absorb word-transformation: while a full 128-byte
window of input remains, XOR it into the rate window at offset 0 and apply
the permutation; XOR any trailing partial window at offset 0 without
permuting. -/
def absorbSpecWords (s : List Nat) (data : List Nat) : List Nat :=
  if data.length < 128 then xorChunk s data
  else absorbSpecWords (permuteWords (xorChunk s (data.take 128))) (data.drop 128)
termination_by data.length
decreasing_by simp only [List.length_drop]; omega

/-- Spec wording of the squeeze output: one permutation before any output,
one further permutation between consecutive 128-byte blocks, output read
from the front of the rate window; exactly `outLen` bytes are returned. -/
def squeezeSpecBytes (qs : QFState) (outLen : Nat) : List Nat :=
  List.take outLen
    (((List.range ((outLen + 127) / 128)).map
      (fun j => rateBytesOf (permuteWords^[j + 1] qs.state) 128)).flatten)

/-- Spec wording of detect (§3 invariant plus §4.4): identical to
`selfHealDetect` except that the ring scan excludes sentinel entries with
`ephemeralKey = 0`, as the spec requires. -/
def detectSkipSentinels (qs : QFState) (ctx : SelfHealContext) : Bool :=
  if validateSnapshot qs ctx.shadowCopy then false
  else if qs.absorbedBytes > MAX_LEN then true
  else if (List.range 5).any (fun i =>
      (ctx.snapshots.getD i sentinelSnapshot).ephemeralKey != 0 &&
      validateSnapshot qs (ctx.snapshots.getD i sentinelSnapshot))
    then false
  else true

/-- Concrete scenario: a freshly initialised self-heal context over the
initial sponge state, with minted key 1. -/
def ctxA : SelfHealContext := selfHealInit qfInit 1

/-- Concrete scenario: the initial state with word 20 corrupted to 12345 and
`absorbedBytes` corrupted to 999. -/
def qsC1bad : QFState :=
  { state := qfInit.state.set 20 12345, absorbedBytes := 999 }

/-- Concrete scenario: recovery from `qsC1bad` in context `ctxA`
(minted key 2); the revert scan accepts ring slot 0. -/
def rC1 : RecoveryResult := selfHealAttemptRecovery qsC1bad ctxA 2

/-- Concrete scenario: the initial state with word 0 corrupted to 999. -/
def qsW : QFState := { qfInit with state := qfInit.state.set 0 999 }

/-- Concrete scenario: recovery from `qsW` in context `ctxA` (minted key 2);
partial repair fixes word 0 and succeeds, leaving `partialRepairs = 1`. -/
def rStep1 : RecoveryResult := selfHealAttemptRecovery qsW ctxA 2

/-- Concrete scenario: the context after `rStep1` with every ring slot's
`ephemeralKey` wiped to 0 (the spec §8 "ring exhaustion" corruption). -/
def ctxWiped : SelfHealContext :=
  { rStep1.ctx with
    snapshots := rStep1.ctx.snapshots.map (fun s => { s with ephemeralKey := 0 }) }

/-- Concrete scenario: recovery on the wiped ring (minted key 3); no ring
candidate validates, so the recovery reinitialises. -/
def rStep2 : RecoveryResult := selfHealAttemptRecovery rStep1.qs ctxWiped 3

/-- Concrete scenario: a context whose ring slot 0 holds a snapshot minted
with ephemeral key 0: initialise with minted key 0, then save a snapshot of
a state with a different byte count (minted key 7). -/
def ctxKey0 : SelfHealContext :=
  selfHealSaveSnapshot (selfHealInit qfInit 0) { qfInit with absorbedBytes := 5 } 7

/-- Helper: indexing a mapped range. -/
theorem getD_map_range (f : Nat → Nat) {n i : Nat} (h : i < n) :
    ((List.range n).map f).getD i 0 = f i := by
  rw [List.getD_eq_getElem?_getD, List.getElem?_map, List.getElem?_range h]
  rfl

/-- Helper: a successful ring scan only ever returns a slot whose key is
nonzero (the `ephemeralKey == 0` sentinel guard in `SelfHeal.cpp` line 213). -/
theorem ringScanIdx_key_ne_zero {ctx : SelfHealContext} {idx : Nat}
    (h : ringScanIdx ctx = some idx) :
    (ctx.snapshots.getD idx sentinelSnapshot).ephemeralKey ≠ 0 := by
  unfold ringScanIdx at h
  have hp := List.find?_some h
  simp only [Bool.and_eq_true, bne_iff_ne] at hp
  exact hp.1

/-- Helper: a `List.foldl` over `List.range n` equals ascending index
iteration of the same body. -/
theorem foldlRange_eq_iterIdx (f : List Nat → Nat → List Nat) (g : Nat → List Nat → List Nat)
    (hfg : ∀ s k, f s k = g k s) :
    ∀ (n : Nat) (s : List Nat), (List.range n).foldl f s = iterIdx g n s := by
  intro n
  induction n with
  | zero => intro s; rfl
  | succ m ih =>
    intro s
    rw [List.range_succ, List.foldl_append]
    simp only [List.foldl_cons, List.foldl_nil, iterIdx, ih, hfg]

/-- Helper: one code round equals one spec-worded round. -/
theorem permRound_eq_specRound (s : List Nat) (r : Nat) :
    permRound s r = specRound r s := by
  unfold permRound specRound specStep1
  rw [foldlRange_eq_iterIdx _ (fun k t => specLaneStep r k t)
      (by intro t i; simp only [specLaneStep])]
  rw [foldlRange_eq_iterIdx _ (fun k t => specPairStep r (2 * k) t)
      (by intro t j; simp only [specPairStep, pairRotA, pairRotB, Nat.mul_comm])]

/-- Helper: the absorb loop computes the spec-worded window fold and
permutes exactly `len / 128` times. -/
theorem absorbLoop_eq_spec :
    ∀ (n : Nat) (data s : List Nat), data.length = n →
      qfAbsorbLoop s data = (absorbSpecWords s data, data.length / 128) := by
  intro n
  induction n using Nat.strong_induction_on with
  | _ n ih =>
    intro data s hlen
    unfold qfAbsorbLoop absorbSpecWords
    dsimp only
    by_cases h0 : data.length = 0
    · have hdata : data = [] := List.length_eq_zero.mp h0
      subst hdata
      simp [xorChunk]
    · rw [if_neg h0]
      by_cases h128 : 128 ≤ data.length
      · have hmin : min data.length 128 = 128 := Nat.min_eq_right h128
        rw [hmin, if_pos rfl, if_neg (by omega)]
        have hrec := ih (data.length - 128) (by omega) (data.drop 128)
          (permuteWords (xorChunk s (data.take 128))) (by simp)
        rw [List.length_drop] at hrec
        rw [hrec]
        refine Prod.ext rfl ?_
        simp only
        omega
      · have hmin : min data.length 128 = data.length := Nat.min_eq_left (by omega)
        rw [hmin, if_neg (by omega), if_pos (by omega), List.take_length]
        refine Prod.ext rfl ?_
        simp only
        omega

/-- Helper: `rateBytesOf` always has the requested length. -/
theorem rateBytesOf_length (s : List Nat) (n : Nat) : (rateBytesOf s n).length = n := by
  simp [rateBytesOf]

/-- Helper: the squeeze loop emits exactly the requested number of bytes. -/
theorem squeezeLoop_length :
    ∀ (n L : Nat) (s : List Nat), L = n → (qfSqueezeLoop s L).1.length = L := by
  intro n
  induction n using Nat.strong_induction_on with
  | _ n ih =>
    intro L s hL
    unfold qfSqueezeLoop
    dsimp only
    by_cases h0 : L = 0
    · simp [h0]
    · rw [if_neg h0]
      by_cases h128 : L ≤ 128
      · rw [if_pos h128]
        simp only [rateBytesOf_length]
        omega
      · rw [if_neg h128]
        simp only [List.length_append, rateBytesOf_length]
        have hrec := ih (L - 128) (by omega) (L - 128) (permuteWords s) rfl
        rw [hrec]
        omega

/-- Helper: the squeeze loop emits the first `L` bytes of the block stream
`rate(s), rate(permute s), rate(permute² s), …` and permutes
`(L - 1) / 128` times. -/
theorem squeezeLoop_eq_spec :
    ∀ (n L : Nat) (s : List Nat), L = n →
      qfSqueezeLoop s L =
        (List.take L (((List.range ((L + 127) / 128)).map
            (fun j => rateBytesOf (permuteWords^[j] s) 128)).flatten),
         (L - 1) / 128) := by
  intro n
  induction n using Nat.strong_induction_on with
  | _ n ih =>
    intro L s hL
    unfold qfSqueezeLoop
    dsimp only
    by_cases h0 : L = 0
    · subst h0
      simp
    · rw [if_neg h0]
      by_cases h128 : L ≤ 128
      · rw [if_pos h128]
        have hnum : (L + 127) / 128 = 1 := by omega
        rw [hnum]
        have hmin : min L 128 = L := Nat.min_eq_left h128
        rw [hmin]
        simp only [show List.range 1 = [0] from rfl, List.map_cons, List.map_nil,
          List.flatten_cons, List.flatten_nil, List.append_nil, Function.iterate_zero_apply]
        refine Prod.ext ?_ (by simp only; omega)
        simp only [rateBytesOf, ← List.map_take, List.take_range, hmin]
      · rw [if_neg h128]
        have hmin : min L 128 = 128 := Nat.min_eq_right (by omega)
        rw [hmin]
        have hrec := ih (L - 128) (by omega) (L - 128) (permuteWords s) rfl
        rw [hrec]
        have hnum : (L + 127) / 128 = ((L - 128) + 127) / 128 + 1 := by omega
        rw [hnum, List.range_succ_eq_map]
        simp only [List.map_cons, List.map_map, List.flatten_cons,
          Function.iterate_zero_apply, Function.comp, Nat.succ_eq_add_one,
          Function.iterate_succ_apply]
        rw [List.take_append_eq_append_take,
          @List.take_of_length_le _ L (rateBytesOf s 128) (by rw [rateBytesOf_length]; omega),
          rateBytesOf_length]
        refine Prod.ext rfl (by simp only; omega)

set_option maxRecDepth 400000 in
/-- Claim C1, counterexample.  The claim says a full revert overwrites only
`state.words[0..8)` and leaves words 8..31 unchanged.  Concretely: from the
anomalous state `qsC1bad` (word 20 corrupted to 12345, byte counter
corrupted to 999) in context `ctxA`, recovery takes the full-revert path
from ring slot 0 — and word 20 comes back as 0, the snapshot's captured
value, not 12345: the revert overwrote a word in the 8..31 range. -/
theorem claim_C1_counterexample :
    selfHealDetect qsC1bad ctxA = true ∧
      rC1.path = RecoveryPath.revertPath 0 ∧
      qsC1bad.state.getD 20 0 = 12345 ∧
      rC1.qs.state.getD 20 0 = 0 ∧
      rC1.qs.state.getD 20 0 ≠ qsC1bad.state.getD 20 0 := by
  decide

/-- Claim C1, amended: when `selfHealAttemptRecovery` performs a full revert
from ring slot `idx`, it overwrites all 32 state words from that snapshot's
captured words (the snapshot stores a full 32-word copy and the revert
`memcpy`s `sizeof(qs.state)` = 256 bytes) and sets `absorbedBytes` to the
snapshot's `totalLen`. -/
theorem claim_C1 (qs : QFState) (ctx : SelfHealContext) (key idx : Nat)
    (h : (selfHealAttemptRecovery qs ctx key).path = RecoveryPath.revertPath idx) :
    (selfHealAttemptRecovery qs ctx key).qs.state
        = (ctx.snapshots.getD idx sentinelSnapshot).state ∧
      (selfHealAttemptRecovery qs ctx key).qs.absorbedBytes
        = (ctx.snapshots.getD idx sentinelSnapshot).totalLen := by
  unfold selfHealAttemptRecovery at h ⊢
  dsimp only at h ⊢
  split at h
  · simp at h
  · rename_i hcond
    split at h
    · rename_i idx2 hscan
      simp only [RecoveryPath.revertPath.injEq] at h
      subst h
      simp only [hcond, Bool.false_eq_true, if_false]
      exact ⟨trivial, trivial⟩
    · simp at h

set_option maxRecDepth 400000 in
/-- Claim C1, witness: the amended theorem applied at the concrete
full-revert run `rC1` (state `qsC1bad`, context `ctxA`, minted key 2,
ring slot 0). -/
theorem claim_C1_witness :
    (selfHealAttemptRecovery qsC1bad ctxA 2).path = RecoveryPath.revertPath 0 ∧
      ((selfHealAttemptRecovery qsC1bad ctxA 2).qs.state
          = (ctxA.snapshots.getD 0 sentinelSnapshot).state ∧
        (selfHealAttemptRecovery qsC1bad ctxA 2).qs.absorbedBytes
          = (ctxA.snapshots.getD 0 sentinelSnapshot).totalLen) :=
  ⟨by decide, claim_C1 qsC1bad ctxA 2 0 (by decide)⟩

set_option maxRecDepth 400000 in
/-- Claim C2, counterexample.  The claim says the three repair counters are
monotonically non-decreasing across every recover, and in particular that a
reinitialising recover leaves `partialRepairs` unchanged.  Concretely: after
one successful partial repair (`ctxWiped.partialRepairs = 1`) and a ring
wipe, the next recovery reinitialises and leaves `partialRepairs = 0` —
the counter decreased, because Part C rebuilds the whole context with
`selfHealInit` (zeroing all counters) before incrementing `totalReinits`. -/
theorem claim_C2_counterexample :
    ctxWiped.partialRepairs = 1 ∧
      rStep2.path = RecoveryPath.reinitPath ∧
      rStep2.ok = false ∧
      rStep2.ctx.partialRepairs = 0 := by
  decide

/-- Claim C2, amended: `selfHealSaveSnapshot` leaves `partialRepairs`,
`fullReverts` and `totalReinits` unchanged (`selfHealDetect` never writes
the context at all); a recover that exits through partial repair increments
`partialRepairs` by one, one that exits through full revert increments
`fullReverts` by one, each preserving the other counters; but a recover
that ends in reinitialisation resets `partialRepairs` and `fullReverts` to
0 and leaves `totalReinits` equal to 1 regardless of its prior value
(the context is rebuilt from scratch, so the counters are not monotonic
across the reinitialisation path).  `consecutiveAnomalies` is 0 after every
recover. -/
theorem claim_C2 (ctx : SelfHealContext) (qs : QFState) (key : Nat) :
    ((selfHealSaveSnapshot ctx qs key).partialRepairs = ctx.partialRepairs ∧
      (selfHealSaveSnapshot ctx qs key).fullReverts = ctx.fullReverts ∧
      (selfHealSaveSnapshot ctx qs key).totalReinits = ctx.totalReinits) ∧
    ((selfHealAttemptRecovery qs ctx key).ctx.partialRepairs =
        (if (selfHealAttemptRecovery qs ctx key).path = RecoveryPath.repairPath
          then ctx.partialRepairs + 1
          else if (selfHealAttemptRecovery qs ctx key).path = RecoveryPath.reinitPath
          then 0 else ctx.partialRepairs) ∧
      (selfHealAttemptRecovery qs ctx key).ctx.fullReverts =
        (if (selfHealAttemptRecovery qs ctx key).path.isRevert
          then ctx.fullReverts + 1
          else if (selfHealAttemptRecovery qs ctx key).path = RecoveryPath.reinitPath
          then 0 else ctx.fullReverts) ∧
      (selfHealAttemptRecovery qs ctx key).ctx.totalReinits =
        (if (selfHealAttemptRecovery qs ctx key).path = RecoveryPath.reinitPath
          then 1 else ctx.totalReinits) ∧
      (selfHealAttemptRecovery qs ctx key).ctx.consecutiveAnomalies = 0) := by
  refine ⟨⟨rfl, rfl, rfl⟩, ?_⟩
  unfold selfHealAttemptRecovery
  dsimp only
  split
  · simp [selfHealSaveSnapshot, RecoveryPath.isRevert]
  · split
    · simp [selfHealSaveSnapshot, RecoveryPath.isRevert]
    · simp [selfHealInit, RecoveryPath.isRevert]

/-- Claim C3 (confirmed): for every state and every input byte sequence of
length `L`, `qfAbsorb` increases `absorbedBytes` by exactly `L` (the
counter's 64-bit wrapping increment `absorbedBytes += len`, also when
`L = 0` or no permutation occurs), transforms the words by XORing the input
into the first 128 state bytes in windows starting at offset 0 with one
permutation after each full 128-byte window (`absorbSpecWords`), and
performs exactly `⌊L / 128⌋` permutations, leaving a trailing partial
window XORed at the front of the rate window without a permutation. -/
theorem claim_C3 (qs : QFState) (data : List Nat) :
    qfAbsorbAux qs data =
      ({ state := absorbSpecWords qs.state data,
         absorbedBytes := (qs.absorbedBytes + data.length) % M64 }, data.length / 128) := by
  unfold qfAbsorbAux
  rw [absorbLoop_eq_spec data.length data qs.state rfl]

/-- Claim C4 (confirmed): `qfPermutation` equals the spec-worded permutation
`permSpec`: 24 rounds `r = 0..23`, each round (1) XORing the round constant
for round `r` into `words[r mod 32]`, (2) for each even `i`, computing
`a = rotl(words[i] ^ words[i+1], (i+r) mod 63)` and
`b = rotl(words[i+1] ^ a, (3i+r) mod 59)` with `b` using the
already-updated `a`, and (3) for `i` ascending from 0 to 31, XORing
`rotl(words[(i+5) mod 32], ((i+r) mod 7) + 1)` into `words[i]`, reading the
state as already mutated within the same pass. -/
theorem claim_C4 (qs : QFState) : qfPermutation qs = permSpec qs := by
  unfold qfPermutation permSpec permuteWords
  rw [foldlRange_eq_iterIdx permRound specRound (fun s r => permRound_eq_specRound s r)]

set_option maxRecDepth 400000 in
/-- Claim C5, counterexample.  The claim says detect's ring scan never
validates the live state against a ring entry whose key is 0.  Concretely:
in `ctxKey0` (built by `selfHealInit` with minted key 0 followed by a
`selfHealSaveSnapshot` of a different state), ring slot 0 holds a snapshot
whose `ephemeralKey` is 0 and which validates the live state `qfInit`;
the shadow does not validate, yet `selfHealDetect` reports healthy —
because its ring scan, unlike recover's, has no key-0 exclusion.  The
spec-worded `detectSkipSentinels` reports anomalous on the same input. -/
theorem claim_C5_counterexample :
    (ctxKey0.snapshots.getD 0 sentinelSnapshot).ephemeralKey = 0 ∧
      validateSnapshot qfInit (ctxKey0.snapshots.getD 0 sentinelSnapshot) = true ∧
      validateSnapshot qfInit ctxKey0.shadowCopy = false ∧
      selfHealDetect qfInit ctxKey0 = false ∧
      detectSkipSentinels qfInit ctxKey0 = true := by
  decide

/-- Claim C5, amended: `selfHealAttemptRecovery`'s revert scan never reverts
from a ring entry whose key is 0 (it skips `ephemeralKey == 0` sentinels);
`selfHealDetect`'s ring scan, however, performs no key-0 exclusion and will
validate the live state against a ring entry whose key is 0 (as the
counterexample shows for a snapshot minted with key 0). -/
theorem claim_C5 (qs : QFState) (ctx : SelfHealContext) (key idx : Nat)
    (h : (selfHealAttemptRecovery qs ctx key).path = RecoveryPath.revertPath idx) :
    (ctx.snapshots.getD idx sentinelSnapshot).ephemeralKey ≠ 0 := by
  unfold selfHealAttemptRecovery at h
  dsimp only at h
  split at h
  · simp at h
  · rename_i hcond
    split at h
    · rename_i idx2 hscan
      simp only [RecoveryPath.revertPath.injEq] at h
      subst h
      exact ringScanIdx_key_ne_zero hscan
    · simp at h

set_option maxRecDepth 400000 in
/-- Claim C5, witness: the amended theorem applied at the concrete
full-revert run (state `qsC1bad`, context `ctxA`, minted key 2, slot 0). -/
theorem claim_C5_witness :
    (selfHealAttemptRecovery qsC1bad ctxA 2).path = RecoveryPath.revertPath 0 ∧
      (ctxA.snapshots.getD 0 sentinelSnapshot).ephemeralKey ≠ 0 :=
  ⟨by decide, claim_C5 qsC1bad ctxA 2 0 (by decide)⟩

/-- Claim C6 (confirmed): for every state and requested length,
`qfSqueeze` returns exactly `outLen` bytes (it is a total function and, by
its type, never writes the caller's state — the C++ takes the state by
`const` reference and works on a local copy); it permutes its copy once
before emitting any output and once more between consecutive 128-byte
output blocks (`(outLen - 1) / 128 + 1` permutations in total), the output
being the first `outLen` bytes of the block stream `squeezeSpecBytes`. -/
theorem claim_C6 (qs : QFState) (outLen : Nat) :
    qfSqueezeAux qs outLen = (squeezeSpecBytes qs outLen, (outLen - 1) / 128 + 1) ∧
      (qfSqueeze qs outLen).length = outLen := by
  have h1 := squeezeLoop_eq_spec outLen outLen (permuteWords qs.state) rfl
  constructor
  · unfold qfSqueezeAux
    dsimp only
    rw [h1]
    refine Prod.ext ?_ rfl
    unfold squeezeSpecBytes
    simp only [← Function.iterate_succ_apply]
  · show (qfSqueezeLoop (permuteWords qs.state) outLen).1.length = outLen
    exact squeezeLoop_length outLen outLen (permuteWords qs.state) rfl

/-- Claim C7 (confirmed): `selfHealAttemptRecovery` returns `false` exactly
when it reaches the reinitialisation step, and in that case the state
afterwards equals `qfInit` (words 0-3 the four fixed constants, words 4-31
zero, `absorbedBytes` zero), the context is re-initialised from that state
(with `totalReinits` then incremented to 1), and `consecutiveAnomalies`
is 0. -/
theorem claim_C7 (qs : QFState) (ctx : SelfHealContext) (key : Nat) :
    ((selfHealAttemptRecovery qs ctx key).ok = false ↔
        (selfHealAttemptRecovery qs ctx key).path = RecoveryPath.reinitPath) ∧
      ((selfHealAttemptRecovery qs ctx key).ok = false →
        (selfHealAttemptRecovery qs ctx key).qs = qfInit ∧
          (selfHealAttemptRecovery qs ctx key).ctx
            = { selfHealInit qfInit key with totalReinits := 1 } ∧
          (selfHealAttemptRecovery qs ctx key).ctx.consecutiveAnomalies = 0) := by
  unfold selfHealAttemptRecovery
  dsimp only
  split
  · simp
  · split
    · simp
    · refine ⟨by simp, fun _ => ⟨rfl, ?_, rfl⟩⟩
      rfl

set_option maxRecDepth 400000 in
/-- Claim C7, witness: the theorem applied at the concrete reinitialising
run (state `rStep1.qs`, wiped-ring context `ctxWiped`, minted key 3). -/
theorem claim_C7_witness :
    (selfHealAttemptRecovery rStep1.qs ctxWiped 3).ok = false ∧
      (selfHealAttemptRecovery rStep1.qs ctxWiped 3).qs = qfInit :=
  ⟨by decide, ((claim_C7 rStep1.qs ctxWiped 3).2 (by decide)).1⟩

/-- Claim C8 (confirmed): for every state `s` and every ephemeral key `k`
that `createSnapshot` may mint, `validateSnapshot s (createSnapshot s k)`
is true when `s` is unchanged between capture and validation. -/
theorem claim_C8 (qs : QFState) (k : Nat) :
    validateSnapshot qs (createSnapshot qs k) = true := by
  simp only [validateSnapshot, createSnapshot, fillChecksums, Bool.and_eq_true,
    List.all_eq_true, beq_iff_eq]
  constructor
  · intro i hi
    rw [List.mem_range] at hi
    rw [getD_map_range _ hi]
  · trivial

/-- Claim C9, counterexample.  The claim says the 24-entry round-constant
table contains 24 pairwise-distinct values; in fact entries 5 and 22 are
both `0x0000000080000001`, so the table is not pairwise distinct. -/
theorem claim_C9_counterexample :
    ¬ List.Pairwise (fun a b => a ≠ b) ROUND_CONSTANTS ∧
      ROUND_CONSTANTS.length = 24 ∧
      ROUND_CONSTANTS.getD 5 0 = ROUND_CONSTANTS.getD 22 0 := by
  decide

/-- Claim C9, amended: the 24-entry round-constant table contains exactly 22
distinct 64-bit values: entry 5 equals entry 22 (`0x0000000080000001`) and
entry 6 equals entry 20 (`0x8000000080008081`); apart from those two
coincidences the values are pairwise distinct (deduplication leaves 22). -/
theorem claim_C9 :
    ROUND_CONSTANTS.length = 24 ∧
      ROUND_CONSTANTS.dedup.length = 22 ∧
      ROUND_CONSTANTS.getD 5 0 = ROUND_CONSTANTS.getD 22 0 ∧
      ROUND_CONSTANTS.getD 6 0 = ROUND_CONSTANTS.getD 20 0 ∧
      ROUND_CONSTANTS.getD 5 0 ≠ ROUND_CONSTANTS.getD 6 0 := by
  decide

/-- Claim C10, counterexample.  The claim says every pair-mix rotation count
is nonzero; in round 0 at pair index `i = 0`, both counts
`(i + r) mod 63` and `(3i + r) mod 59` are 0, so `rotl64` is called with
`n = 0` and the C++ sub-expression `x >> (64 - n)` shifts by 64 there. -/
theorem claim_C10_counterexample : pairRotA 0 0 = 0 ∧ pairRotB 0 0 = 0 := by
  decide

/-- Claim C10, amended: over the permutation's ranges (`r < 24`, even
`i = 2j < 32`), the first pair-mix rotation count `(i + r) mod 63` is zero
exactly at `(r, i) = (0, 0)` and the second `(3i + r) mod 59` is zero
exactly at `(r, i) ∈ {(0,0), (5,18), (11,16), (17,14), (23,12)}`; at those
calls the C++ `x >> (64 - n)` shifts a 64-bit value by 64 (undefined
behaviour); under the embedding's mathematical shift `rotl64 x 0 = x`. -/
theorem claim_C10 :
    ((List.range 24).all (fun r => (List.range 16).all (fun j =>
        (pairRotA (2 * j) r == 0) == (r == 0 && j == 0))) = true) ∧
      ((List.range 24).all (fun r => (List.range 16).all (fun j =>
        (pairRotB (2 * j) r == 0) ==
          [(0, 0), (5, 9), (11, 8), (17, 7), (23, 6)].contains (r, j))) = true) ∧
      rotl64 12345 0 = 12345 := by
  decide
